import Mathlib

/-!
Verification of the Kerberos federation source model
(`authentik/sources/kerberos/models.py`).

The Python module is shallowly embedded below.  Mutable process-wide state
(the `KRB5_CONFIG` environment variable, the scratch filesystem, the
class-level `_kadmin_connections` cache) is threaded explicitly through a
`World` record.  Python exceptions are modelled with `Except PyError`.
The external `kadmin` library (an external collaborator, consumed as an
interface) is modelled by a `Remote` oracle record; each successful
`kadmin.init_with_*` call produces a fresh session object, which we model
by tagging sessions with a monotone counter drawn from the `World`.
-/

/-- One of the three `kadmin.init_with_*` entry points together with the
arguments the source passes to it (the empty keyword-argument dictionary is
omitted).  Mirrors the calls in `KerberosSource._kadmin_init`. -/
inductive KAdminCall
  | withPassword (principal password realm : String)
  | withKeytab (principal keytab realm : String)
  | withCcache (principal ccache realm : String)
deriving DecidableEq

/-- A live `kadmin.KAdmin` session object.  Each call to an
`init_with_*` function in the Python library builds a distinct object;
`id` is a freshness tag making object identity observable. -/
structure Session where
  id : Nat
  call : KAdminCall
deriving DecidableEq

/-- Python exceptions that can escape the modelled code:
`AttributeError` (attribute lookup on a name the class does not define),
`KeyError` (from `del os.environ[...]` on an unset variable) and
`kadmin.Error` (any remote-realm failure raised by the kadmin library). -/
inductive PyError
  | attributeError (attr : String)
  | keyError (key : String)
  | kadminError (msg : String)
deriving DecidableEq

/-- The fields of `KerberosSource` used by the modelled methods.
`pk` and `slug` are inherited from the base model (`Source` identity, not
under the analysed sources; per the spec a source carries a unique
identity and a slug).  Text fields are `blank=True`; the empty string is
Python-falsy. -/
structure KerberosSource where
  pk : String
  slug : String
  realm : String
  krb5_conf : String
  sync_users : Bool
  sync_principal : String
  sync_password : String
  sync_keytab : String
  sync_ccache : String

/-- Process-wide mutable state threaded through the embedding:
the `KRB5_CONFIG` environment variable (`none` = unset), the scratch
filesystem (most recent write first), the class-level
`_kadmin_connections` cache (keyed by `str(self.pk)`; a stored value is
itself optional because the code stores whatever `_kadmin_init` returned),
the fresh-session counter, and an instrumentation counter of
`_kadmin_init` invocations (observing authentication attempts). -/
structure World where
  krb5Env : Option String
  files : List (String × String)
  cache : String → Option (Option Session)
  nextId : Nat
  initCalls : Nat

/-- The remote realm, an external collaborator: whether an
`init_with_*` authentication succeeds (else it raises `kadmin.Error` with
a message) and what `KAdmin.principal_exists` answers (or raises). -/
structure Remote where
  auth : KAdminCall → Except String Unit
  principalExists : Session → String → Except String Bool

/-- The status report dictionary built by `check_connection`:
the `"status"` entry and the optional `"principal_exists"` entry. -/
structure Report where
  status : String
  principal_exists : Option Bool
deriving DecidableEq

/-- Models `tempfile.gettempdir()` as a fixed scratch root. -/
def gettempdir : String := "/tmp"

/-- The per-source scratch directory
`Path(gettempdir()) / "authentik" / "sources" / "kerberos" / str(self.pk)`
(used both for `krb5.conf` and for the decoded keytab).  Directory
creation (`mkdir(parents=True, exist_ok=True)`) has no observable content
and is not tracked. -/
def conf_dir (src : KerberosSource) : String :=
  gettempdir ++ "/authentik/sources/kerberos/" ++ src.pk

/-- The per-source `krb5.conf` path. -/
def conf_path (src : KerberosSource) : String :=
  conf_dir src ++ "/krb5.conf"

/-- Models `KerberosSource.krb5_conf_path`: `None` when `krb5_conf` is
blank; otherwise write the configuration text to the per-source path and
return that path. -/
def krb5_conf_path (src : KerberosSource) (w : World) : Option String × World :=
  if src.krb5_conf = "" then (none, w)
  else (some (conf_path src), { w with files := (conf_path src, src.krb5_conf) :: w.files })

/-- Models `KerberosSource.set_krb5_conf`: if there is no config path the
method returns `None` without touching the environment; otherwise it saves
`os.environ.get("KRB5_CONFIG", None)`, overwrites the variable with the
new path, and returns the saved previous value. -/
def set_krb5_conf (src : KerberosSource) (w : World) : Option String × World :=
  match krb5_conf_path src w with
  | (none, w1) => (none, w1)
  | (some path, w1) => (w1.krb5Env, { w1 with krb5Env := some path })

/-- Python truthiness of a `str | None` value: `None` and `""` are falsy. -/
def truthy (s : Option String) : Bool :=
  match s with
  | none => false
  | some v => v ≠ ""

/-- Models `KerberosSource.restore_krb5_conf`: `if previous:` writes the
saved value back, `else:` executes `del os.environ["KRB5_CONFIG"]`, which
removes the variable when present and raises `KeyError` when it is not. -/
def restore_krb5_conf (previous : Option String) (w : World) : Except PyError World :=
  if truthy previous then .ok { w with krb5Env := previous }
  else
    match w.krb5Env with
    | some _ => .ok { w with krb5Env := none }
    | none => .error (.keyError "KRB5_CONFIG")

/-- Models `with Krb5ConfContext(source): body` with Python's
`with`-statement semantics: `__enter__` stores `set_krb5_conf()`'s result,
the body runs (returning a value or raising), and `__exit__` always calls
`restore_krb5_conf(previous)`.  The context manager does not suppress body
exceptions; if `__exit__` itself raises, that exception propagates. -/
def withKrb5Conf {α : Type} (src : KerberosSource)
    (body : World → Except PyError α × World) (w : World) :
    Except PyError α × World :=
  let p := set_krb5_conf src w
  let b := body p.2
  match restore_krb5_conf p.1 b.2 with
  | .ok w3 => (b.1, w3)
  | .error e => (.error e, b.2)

/-- Models one `kadmin.init_with_*` library call: on success a fresh
session object tagged with the next counter value, on failure the raised
`kadmin.Error`. -/
def mkSession (remote : Remote) (c : KAdminCall) (w : World) :
    Except PyError (Option Session) × World :=
  match remote.auth c with
  | .ok _ => (.ok (some { id := w.nextId, call := c }), { w with nextId := w.nextId + 1 })
  | .error m => (.error (.kadminError m), w)

/-- Models `KerberosSource._kadmin_init`.  The invocation counter is
bumped on entry.  Branches follow the source exactly: no principal means
no session; then password, keytab, ccache, in that order.  The membership
test `":" not in keytab` is taken on the keytab's character list.  In the
keytab branch, a value without a `":"` delimiter reaches
`keytab_path.write_bytes(b64decode(self.keytab))`; neither
`KerberosSource` nor its base defines an attribute `keytab` (the field is
`sync_keytab`), so that expression raises `AttributeError` before
anything is written. -/
def kadmin_init (remote : Remote) (src : KerberosSource) (w0 : World) :
    Except PyError (Option Session) × World :=
  let w := { w0 with initCalls := w0.initCalls + 1 }
  if src.sync_principal = "" then (.ok none, w)
  else if src.sync_password ≠ "" then
    mkSession remote (.withPassword src.sync_principal src.sync_password src.realm) w
  else if src.sync_keytab ≠ "" then
    if src.sync_keytab.data.contains ':' then
      mkSession remote (.withKeytab src.sync_principal src.sync_keytab src.realm) w
    else (.error (.attributeError "keytab"), w)
  else if src.sync_ccache ≠ "" then
    mkSession remote (.withCcache src.sync_principal src.sync_ccache src.realm) w
  else (.ok none, w)

/-- Models `KerberosSource.connection`: on a cache miss `_kadmin_init` is
called, its result tested against `None`, and if non-null `_kadmin_init`
is called a second time and that second result stored; the method returns
`self._kadmin_connections.get(str(self.pk), None)` (modelled per branch,
`Option.join` collapsing the stored optional value). -/
def connection (remote : Remote) (src : KerberosSource) (w : World) :
    Except PyError (Option Session) × World :=
  match w.cache src.pk with
  | some _ => (.ok (Option.join (w.cache src.pk)), w)
  | none =>
    match kadmin_init remote src w with
    | (.error e, w1) => (.error e, w1)
    | (.ok none, w1) => (.ok (Option.join (w1.cache src.pk)), w1)
    | (.ok (some _), w1) =>
      match kadmin_init remote src w1 with
      | (.error e, w2) => (.error e, w2)
      | (.ok kadm2, w2) =>
        let w3 : World :=
          { w2 with cache := fun k => if k = src.pk then some kadm2 else w2.cache k }
        (.ok (Option.join (w3.cache src.pk)), w3)

/-- The distributed lock name
`f"goauthentik.io/sources/kerberos/sync/{connection.schema_name}-{self.slug}"`. -/
def sync_lock_name (schema_name slug : String) : String :=
  "goauthentik.io/sources/kerberos/sync/" ++ schema_name ++ "-" ++ slug

/-- The redis lock object as configured by `KerberosSource.sync_lock`:
its global name and its expiry timeout. -/
structure RedisLock where
  name : String
  timeout : Int
deriving DecidableEq

/-- Models the `KerberosSource.sync_lock` property:
`Lock(name=..., timeout=(60 * 60 * CONFIG.get_int("kerberos.task_timeout_hours")) * 3)`. -/
def sync_lock (schema_name slug : String) (task_timeout_hours : Int) : RedisLock :=
  { name := sync_lock_name schema_name slug
    timeout := 60 * 60 * task_timeout_hours * 3 }

/-- Models `KerberosSource.check_connection`: status starts as
`"ok"`; a sync-disabled source returns immediately; otherwise, inside
`Krb5ConfContext`, the connection is fetched and
`principal_exists(sync_principal)` queried, with `kadmin.Error` (and only
`kadmin.Error`) caught and folded into the status string. -/
def check_connection (remote : Remote) (src : KerberosSource) (w : World) :
    Except PyError Report × World :=
  if src.sync_users then
    withKrb5Conf src (fun w1 =>
      match connection remote src w1 with
      | (.error (.kadminError m), w2) => (.ok { status := m, principal_exists := none }, w2)
      | (.error e, w2) => (.error e, w2)
      | (.ok none, w2) => (.ok { status := "no connection", principal_exists := none }, w2)
      | (.ok (some kadm), w2) =>
        match remote.principalExists kadm src.sync_principal with
        | .ok b => (.ok { status := "ok", principal_exists := some b }, w2)
        | .error m => (.ok { status := m, principal_exists := none }, w2)) w
  else (.ok { status := "ok", principal_exists := none }, w)

/-- An in-flight synchronization pass, identified by the tenant scope
(database schema name) and the source slug that its lock name is built
from. -/
structure SyncPass where
  schema_name : String
  slug : String
deriving DecidableEq

/-- Modelled from the spec: the sync task code (`tasks.py`, not among the
analysed sources) acquires the distributed lock named
`sync_lock_name` before a pass runs and releases it afterwards, and the
distributed lock primitive grants a name to at most one holder at a time
(acquire succeeds only while no pass holding the same name is running).
States are the multiset of running passes; a pass may start only when its
lock name is free, and any running pass may finish. -/
inductive SyncStep : List SyncPass → List SyncPass → Prop
  | start (p : SyncPass) (s : List SyncPass)
      (hfree : ∀ q ∈ s, sync_lock_name q.schema_name q.slug ≠ sync_lock_name p.schema_name p.slug) :
      SyncStep s (p :: s)
  | finish (p : SyncPass) (s₁ s₂ : List SyncPass) :
      SyncStep (s₁ ++ p :: s₂) (s₁ ++ s₂)

/-- Modelled from the spec: the deployment starts with no sync pass
running and evolves by `SyncStep`. -/
inductive SyncReachable : List SyncPass → Prop
  | init : SyncReachable []
  | step {s t : List SyncPass} : SyncReachable s → SyncStep s t → SyncReachable t

/-- Well-formedness of the connection-cache world: every cached session
was minted below the fresh counter, and sessions cached under different
keys carry different freshness tags (are different objects). -/
def CacheWF (w : World) : Prop :=
  (∀ k s, w.cache k = some (some s) → s.id < w.nextId) ∧
  ∀ k k' s s', w.cache k = some (some s) → w.cache k' = some (some s') →
    k ≠ k' → s.id ≠ s'.id

/-- A remote realm on which every operation succeeds. -/
def remoteOk : Remote :=
  { auth := fun _ => .ok (), principalExists := fun _ _ => .ok true }

/-- A remote realm on which every authentication raises `kadmin.Error`
with the given message. -/
def remoteAuthFail (msg : String) : Remote :=
  { auth := fun _ => .error msg, principalExists := fun _ _ => .ok true }

/-- A world with unset `KRB5_CONFIG`, empty filesystem and empty cache. -/
def emptyWorld : World :=
  { krb5Env := none, files := [], cache := fun _ => none, nextId := 0, initCalls := 0 }

/-- A body for scope tests that leaves the world untouched and returns 0. -/
def idBody : World → Except PyError Nat × World := fun w => (.ok 0, w)

/-- A body for scope tests that raises a `kadmin.Error` mid-way, leaving
the world untouched. -/
def raisingBody : World → Except PyError Nat × World :=
  fun w => (.error (.kadminError "boom"), w)

/-- The outcome of one `kadmin.init_with_*` call made by `_kadmin_init`,
abstracted from the state counters: which call succeeds (or the raised
error).  Used as a convenient specification device; `kadmin_init_spec`
proves `kadmin_init` against it. -/
def authCall (remote : Remote) (c : KAdminCall) : Except PyError (Option KAdminCall) :=
  match remote.auth c with
  | .ok _ => .ok (some c)
  | .error m => .error (.kadminError m)

/-- The decision `_kadmin_init` makes, as a pure function of the
credential fields and the remote realm (it does not depend on the
threaded state). -/
def initResult (remote : Remote) (src : KerberosSource) : Except PyError (Option KAdminCall) :=
  if src.sync_principal = "" then .ok none
  else if src.sync_password ≠ "" then
    authCall remote (.withPassword src.sync_principal src.sync_password src.realm)
  else if src.sync_keytab ≠ "" then
    if src.sync_keytab.data.contains ':' then
      authCall remote (.withKeytab src.sync_principal src.sync_keytab src.realm)
    else .error (.attributeError "keytab")
  else if src.sync_ccache ≠ "" then
    authCall remote (.withCcache src.sync_principal src.sync_ccache src.realm)
  else .ok none

/-- A source configured with a sync password (and, to exercise
precedence, a keytab and a ccache as well). -/
def srcPassword : KerberosSource :=
  { pk := "11111111-aaaa", slug := "kerberos-main", realm := "EXAMPLE.COM", krb5_conf := "",
    sync_users := true, sync_principal := "sync@EXAMPLE.COM", sync_password := "hunter2",
    sync_keytab := "WRONG:unused", sync_ccache := "KCM:unused" }

/-- Like `srcPassword` but with no password and a `TYPE:residual` keytab
reference (ccache still populated, to exercise precedence). -/
def srcKeytabRef : KerberosSource :=
  { srcPassword with sync_password := "", sync_keytab := "FILE:/etc/krb5.keytab" }

/-- Like `srcKeytabRef` but the keytab is base64 text with no colon
(`"QUJDRA=="` is base64 of `"ABCD"`). -/
def srcKeytabB64 : KerberosSource :=
  { srcKeytabRef with sync_keytab := "QUJDRA==" }

/-- A source whose only credential is a ccache reference. -/
def srcCcache : KerberosSource :=
  { srcPassword with sync_password := "", sync_keytab := "", sync_ccache := "KCM:12345" }

/-- A source with a sync principal but no credential material at all. -/
def srcNoCreds : KerberosSource :=
  { srcPassword with sync_password := "", sync_keytab := "", sync_ccache := "" }

/-- A source with no sync principal configured. -/
def srcNoPrincipal : KerberosSource :=
  { srcPassword with sync_principal := "" }

/-- A second password-credentialled source with a different identity. -/
def srcOther : KerberosSource :=
  { srcPassword with
    pk := "22222222-bbbb"
    slug := "kerberos-other"
    sync_principal := "other@EXAMPLE.COM" }

/-- A source with realm configuration text (non-blank `krb5_conf`). -/
def srcConf : KerberosSource :=
  { srcPassword with krb5_conf := "[libdefaults]" }

/-- A world whose `KRB5_CONFIG` holds a previous value. -/
def wPrior : World := { emptyWorld with krb5Env := some "/etc/old-krb5.conf" }

/-- A world whose `KRB5_CONFIG` is set to the empty string. -/
def wEmptyPrior : World := { emptyWorld with krb5Env := some "" }

/-! ## Helper lemmas -/

/-- The empty cache is well-formed. -/
theorem cacheWF_empty : CacheWF emptyWorld :=
  ⟨fun _ _ h => Option.noConfusion h, fun _ _ _ _ h _ _ => Option.noConfusion h⟩

/-- `kadmin_init` against its state-free decision `initResult`: the
invocation counter is always bumped; a successful init consumes one fresh
session tag. -/
theorem kadmin_init_spec (remote : Remote) (src : KerberosSource) (w : World) :
    kadmin_init remote src w =
      match initResult remote src with
      | .ok none => (.ok none, { w with initCalls := w.initCalls + 1 })
      | .ok (some c) =>
        (.ok (some { id := w.nextId, call := c }),
         { w with initCalls := w.initCalls + 1, nextId := w.nextId + 1 })
      | .error e => (.error e, { w with initCalls := w.initCalls + 1 }) := by
  unfold kadmin_init initResult
  split_ifs <;> simp only [mkSession, authCall] <;> try rfl
  all_goals cases h : remote.auth _ <;> simp [h]

/-! ## Claim theorems -/

/-- C1, counterexample: with a non-empty `krb5_conf` and a prior
`KRB5_CONFIG` value that happens to be the empty string, the prior value
exists but is not written back on exit — the variable ends unset
(`restore_krb5_conf` tests Python truthiness, which conflates `""` with
`None`). -/
theorem C1_krb5_scope_counterexample :
    srcConf.krb5_conf ≠ "" ∧
    wEmptyPrior.krb5Env = some "" ∧
    ((withKrb5Conf srcConf idBody wEmptyPrior).2).krb5Env = none := by
  refine ⟨by decide, rfl, rfl⟩

/-- C1, amended: for every source with non-empty `krb5_conf`, entry saves
the current `KRB5_CONFIG` value and sets the variable to the per-source
path; on every exit path (body returning or raising, the body's outcome
passing through) a non-empty saved prior value is written back, and when
no prior value existed or the prior value was the empty string the
variable ends unset. -/
theorem C1_krb5_scope_save_restore {α : Type} (src : KerberosSource) (w : World)
    (body : World → Except PyError α × World)
    (hconf : src.krb5_conf ≠ "")
    (hbody : ∀ v, ((body v).2).krb5Env = v.krb5Env) :
    (set_krb5_conf src w).1 = w.krb5Env ∧
    ((set_krb5_conf src w).2).krb5Env = some (conf_path src) ∧
    ((withKrb5Conf src body w).2).krb5Env =
      (match w.krb5Env with
       | some p => if p = "" then none else some p
       | none => none) ∧
    (withKrb5Conf src body w).1 = (body (set_krb5_conf src w).2).1 := by
  refine ⟨?_, ?_, ?_, ?_⟩
  · simp [set_krb5_conf, krb5_conf_path, hconf]
  · simp [set_krb5_conf, krb5_conf_path, hconf]
  · rcases henv : w.krb5Env with _ | p
    · simp [withKrb5Conf, set_krb5_conf, krb5_conf_path, hconf, restore_krb5_conf,
        truthy, hbody, henv]
    · by_cases hp : p = ""
      · subst hp
        simp [withKrb5Conf, set_krb5_conf, krb5_conf_path, hconf, restore_krb5_conf,
          truthy, hbody, henv]
      · simp [withKrb5Conf, set_krb5_conf, krb5_conf_path, hconf, restore_krb5_conf,
          truthy, hbody, henv, hp]
  · rcases henv : w.krb5Env with _ | p
    · simp [withKrb5Conf, set_krb5_conf, krb5_conf_path, hconf, restore_krb5_conf,
        truthy, hbody, henv]
    · by_cases hp : p = ""
      · subst hp
        simp [withKrb5Conf, set_krb5_conf, krb5_conf_path, hconf, restore_krb5_conf,
          truthy, hbody, henv]
      · simp [withKrb5Conf, set_krb5_conf, krb5_conf_path, hconf, restore_krb5_conf,
          truthy, hbody, henv, hp]

/-- C1, witness: the amended theorem applied at a concrete source, prior
value and body. -/
theorem C1_krb5_scope_save_restore_witness :
    (set_krb5_conf srcConf wPrior).1 = some "/etc/old-krb5.conf" ∧
    ((set_krb5_conf srcConf wPrior).2).krb5Env = some (conf_path srcConf) ∧
    ((withKrb5Conf srcConf idBody wPrior).2).krb5Env = some "/etc/old-krb5.conf" := by
  have h := C1_krb5_scope_save_restore srcConf wPrior idBody (by decide) (fun _ => rfl)
  exact ⟨h.1, h.2.1, h.2.2.1⟩

/-- C2, code evaluated at the failing inputs: for a source with blank
`krb5_conf`, entry is indeed a no-op (environment and filesystem
untouched), but exit does not restore nothing: `__exit__` calls
`restore_krb5_conf(None)`, whose `del os.environ["KRB5_CONFIG"]` deletes
a pre-existing value outright, and raises `KeyError` when the variable
was unset. -/
theorem C2_empty_conf_scope_mutates_env :
    srcPassword.krb5_conf = "" ∧
    set_krb5_conf srcPassword wPrior = (none, wPrior) ∧
    withKrb5Conf srcPassword idBody wPrior = (.ok 0, { wPrior with krb5Env := none }) ∧
    withKrb5Conf srcPassword idBody emptyWorld
      = (.error (.keyError "KRB5_CONFIG"), emptyWorld) :=
  ⟨rfl, rfl, rfl, rfl⟩

/-- C3, code evaluated on the credential configurations: precedence
password > keytab > ccache > none holds on the branches that work, but on
a keytab without a `":"` delimiter `_kadmin_init` raises
`AttributeError` (it reads the undefined attribute `keytab`) instead of
using the keytab. -/
theorem C3_kadmin_init_precedence :
    (kadmin_init remoteOk srcNoPrincipal emptyWorld).1 = .ok none ∧
    (kadmin_init remoteOk srcPassword emptyWorld).1
      = .ok (some ⟨0, .withPassword "sync@EXAMPLE.COM" "hunter2" "EXAMPLE.COM"⟩) ∧
    (kadmin_init remoteOk srcKeytabRef emptyWorld).1
      = .ok (some ⟨0, .withKeytab "sync@EXAMPLE.COM" "FILE:/etc/krb5.keytab" "EXAMPLE.COM"⟩) ∧
    (kadmin_init remoteOk srcKeytabB64 emptyWorld).1 = .error (.attributeError "keytab") ∧
    (kadmin_init remoteOk srcCcache emptyWorld).1
      = .ok (some ⟨0, .withCcache "sync@EXAMPLE.COM" "KCM:12345" "EXAMPLE.COM"⟩) ∧
    (kadmin_init remoteOk srcNoCreds emptyWorld).1 = .ok none :=
  ⟨rfl, rfl, rfl, rfl, rfl, rfl⟩

/-- C4, code evaluated on the two keytab shapes: a value containing a
`":"` is passed verbatim to the keytab call (never decoded, nothing
written to the filesystem), while the base64 value without a `":"`
raises `AttributeError` — the decoded bytes are never written and no
`FILE:` reference is built. -/
theorem C4_keytab_handling :
    kadmin_init remoteOk srcKeytabRef emptyWorld
      = (.ok (some ⟨0, .withKeytab "sync@EXAMPLE.COM" "FILE:/etc/krb5.keytab" "EXAMPLE.COM"⟩),
         { emptyWorld with initCalls := 1, nextId := 1 }) ∧
    kadmin_init remoteOk srcKeytabB64 emptyWorld
      = (.error (.attributeError "keytab"), { emptyWorld with initCalls := 1 }) :=
  ⟨rfl, rfl⟩

/-- C6, code evaluated: a sync-disabled source yields exactly the
`"ok"` report with the world untouched (no scope entry, no connection
attempt); a sync-enabled source with no principal and realm config text
reports `"no connection"`; but the same source with blank `krb5_conf`
and no pre-existing `KRB5_CONFIG` raises `KeyError` from the scope's
exit instead of returning the report. -/
theorem C6_check_connection_reports :
    check_connection remoteOk { srcPassword with sync_users := false } emptyWorld
      = (.ok { status := "ok", principal_exists := none }, emptyWorld) ∧
    (check_connection remoteOk { srcNoPrincipal with krb5_conf := "[libdefaults]" }
        emptyWorld).1
      = .ok { status := "no connection", principal_exists := none } ∧
    (check_connection remoteOk srcNoPrincipal emptyWorld).1
      = .error (.keyError "KRB5_CONFIG") :=
  ⟨rfl, rfl, rfl⟩

/-- C7, code evaluated: a remote-realm `kadmin.Error` is caught and folded
into the status string, and a reachable realm yields the `"ok"` report;
but `check_connection` is not exception-free: with a colon-free keytab it
raises `AttributeError` (only `kadmin.Error` is caught). -/
theorem C7_check_connection_error_handling :
    (check_connection (remoteAuthFail "kadmin: Cannot contact any KDC") srcConf
        emptyWorld).1
      = .ok { status := "kadmin: Cannot contact any KDC", principal_exists := none } ∧
    (check_connection remoteOk srcConf emptyWorld).1
      = .ok { status := "ok", principal_exists := some true } ∧
    (check_connection remoteOk { srcKeytabB64 with krb5_conf := "[libdefaults]" }
        emptyWorld).1
      = .error (.attributeError "keytab") :=
  ⟨rfl, rfl, rfl⟩

/-- C8: for every schema name, slug and configured integer
`task_timeout_hours`, the sync lock's timeout is exactly
`3 × task_timeout_hours × 3600` seconds; in particular two hours yield a
21600-second timeout. -/
theorem C8_sync_lock_timeout :
    (∀ (schema_name slug : String) (h : Int),
      (sync_lock schema_name slug h).timeout = 3 * h * 3600) ∧
    (sync_lock "public" "kerberos-main" 2).timeout = 21600 := by
  constructor
  · intro schema_name slug h
    show 60 * 60 * h * 3 = 3 * h * 3600
    ring
  · rfl

/-- Evaluating `connection` on a cache hit: the stored value is returned
and the world is untouched (no authentication). -/
theorem connection_cached (remote : Remote) (src : KerberosSource) (w : World)
    (v : Option Session) (h : w.cache src.pk = some v) :
    connection remote src w = (.ok v, w) := by
  simp [connection, h]

/-- Evaluating `connection` on a cache miss when the credentials resolve
to no session: nothing is stored, only the invocation counter moves. -/
theorem connection_none (remote : Remote) (src : KerberosSource) (w : World)
    (hmiss : w.cache src.pk = none) (hinit : initResult remote src = .ok none) :
    connection remote src w = (.ok none, { w with initCalls := w.initCalls + 1 }) := by
  simp [connection, hmiss, kadmin_init_spec, hinit]

/-- Evaluating `connection` on a cache miss when the credentials raise:
the error propagates and nothing is stored. -/
theorem connection_raise (remote : Remote) (src : KerberosSource) (w : World)
    (e : PyError) (hmiss : w.cache src.pk = none)
    (hinit : initResult remote src = .error e) :
    connection remote src w = (.error e, { w with initCalls := w.initCalls + 1 }) := by
  simp [connection, hmiss, kadmin_init_spec, hinit]

/-- Evaluating `connection` on a cache miss when the credentials resolve
to a session: `_kadmin_init` runs twice, the second session (tag
`nextId + 1`) is stored and returned. -/
theorem connection_store (remote : Remote) (src : KerberosSource) (w : World)
    (c : KAdminCall) (hmiss : w.cache src.pk = none)
    (hinit : initResult remote src = .ok (some c)) :
    connection remote src w =
      (.ok (some { id := w.nextId + 1, call := c }),
       { w with
         initCalls := w.initCalls + 2
         nextId := w.nextId + 2
         cache := fun k => if k = src.pk
           then some (some { id := w.nextId + 1, call := c })
           else w.cache k }) := by
  simp [connection, hmiss, kadmin_init_spec, hinit]

/-- Storing a fresh session (tag `nextId + 1`, counter advanced to
`nextId + 2`) under a previously absent key preserves cache
well-formedness. -/
theorem cacheWF_store {w : World} (hwf : CacheWF w) (pk : String) (c : KAdminCall) :
    CacheWF { w with
      initCalls := w.initCalls + 2
      nextId := w.nextId + 2
      cache := fun k => if k = pk
        then some (some { id := w.nextId + 1, call := c })
        else w.cache k } := by
  constructor
  · intro k s h
    simp only at h
    by_cases hk : k = pk
    · rw [if_pos hk] at h
      obtain rfl : ({ id := w.nextId + 1, call := c } : Session) = s := by
        simpa using h
      show w.nextId + 1 < w.nextId + 2
      omega
    · rw [if_neg hk] at h
      have := hwf.1 k s h
      show s.id < w.nextId + 2
      omega
  · intro k k' s s' h h' hkk
    simp only at h h'
    by_cases hk : k = pk <;> by_cases hk' : k' = pk
    · exact absurd (hk.trans hk'.symm) hkk
    · rw [if_pos hk] at h
      rw [if_neg hk'] at h'
      obtain rfl : ({ id := w.nextId + 1, call := c } : Session) = s := by simpa using h
      have := hwf.1 k' s' h'
      show w.nextId + 1 ≠ s'.id
      omega
    · rw [if_neg hk] at h
      rw [if_pos hk'] at h'
      obtain rfl : ({ id := w.nextId + 1, call := c } : Session) = s' := by simpa using h'
      have := hwf.1 k s h
      show s.id ≠ w.nextId + 1
      omega
    · rw [if_neg hk] at h
      rw [if_neg hk'] at h'
      exact hwf.2 k k' s s' h h' hkk

/-- One `connection` call preserves cache well-formedness, preserves all
previously cached sessions, and — when it returns a session — leaves that
very session cached under the source's key with an in-bound tag. -/
theorem connection_wf (remote : Remote) (src : KerberosSource) (w : World)
    (hwf : CacheWF w) :
    CacheWF (connection remote src w).2 ∧
    (∀ k t, w.cache k = some (some t) →
      (connection remote src w).2.cache k = some (some t)) ∧
    ∀ s : Session, (connection remote src w).1 = .ok (some s) →
      (connection remote src w).2.cache src.pk = some (some s) := by
  rcases hc : w.cache src.pk with _ | v
  · rcases hr : initResult remote src with e | co
    case error =>
      rw [connection_raise remote src w e hc hr]
      exact ⟨hwf, fun k t h => h, fun s h => by simp at h⟩
    case ok =>
      rcases co with _ | c
      · rw [connection_none remote src w hc hr]
        exact ⟨hwf, fun k t h => h, fun s h => by simp at h⟩
      · rw [connection_store remote src w c hc hr]
        refine ⟨cacheWF_store hwf src.pk c, ?_, ?_⟩
        · intro k t h
          simp only
          rw [if_neg ?_]
          · exact h
          · intro hk
            rw [hk, hc] at h
            exact Option.noConfusion h
        · intro s h
          obtain rfl : ({ id := w.nextId + 1, call := c } : Session) = s := by simpa using h
          simp
  · rw [connection_cached remote src w v hc]
    refine ⟨hwf, fun k t h => h, ?_⟩
    intro s h
    obtain rfl : v = some s := by simpa using h
    exact hc

/-- After a successful `connection` call, the returned session sits in
the cache, so the next call for the same source is a pure cache hit. -/
theorem connection_idempotent (remote : Remote) (src : KerberosSource)
    {w w1 : World} {s : Session}
    (h : connection remote src w = (.ok (some s), w1)) :
    connection remote src w1 = (.ok (some s), w1) := by
  rcases hc : w.cache src.pk with _ | v
  · rcases hr : initResult remote src with e | co
    case error =>
      rw [connection_raise remote src w e hc hr] at h
      injection h with h1 _
      exact Except.noConfusion h1
    case ok =>
      rcases co with _ | c
      · rw [connection_none remote src w hc hr] at h
        injection h with h1 _
        simp at h1
      · rw [connection_store remote src w c hc hr] at h
        injection h with h1 h2
        obtain rfl : ({ id := w.nextId + 1, call := c } : Session) = s := by simpa using h1
        refine connection_cached remote src w1 (some _) ?_
        rw [← h2]
        simp
  · rw [connection_cached remote src w v hc] at h
    injection h with h1 h2
    obtain rfl : v = some s := by simpa using h1
    subst h2
    exact connection_cached remote src w (some s) hc

/-- C5: a second `connection` call for the same source returns the
identical cached session object and leaves the world untouched (in
particular no re-authentication); calls for two different source
identities never return the same session object; and when credential
resolution yields no session nothing is stored — only the invocation
counter moves — so the next call re-attempts authentication. -/
theorem C5_connection_pool :
    (∀ (remote : Remote) (src : KerberosSource) (w w1 : World) (s : Session),
      connection remote src w = (.ok (some s), w1) →
      connection remote src w1 = (.ok (some s), w1)) ∧
    (∀ (remote : Remote) (src1 src2 : KerberosSource) (w w1 w2 : World)
        (s1 s2 : Session),
      CacheWF w → src1.pk ≠ src2.pk →
      connection remote src1 w = (.ok (some s1), w1) →
      connection remote src2 w1 = (.ok (some s2), w2) →
      s1 ≠ s2) ∧
    ∀ (remote : Remote) (src : KerberosSource) (w : World),
      w.cache src.pk = none → initResult remote src = .ok none →
      connection remote src w = (.ok none, { w with initCalls := w.initCalls + 1 }) := by
  refine ⟨fun remote src w w1 s h => connection_idempotent remote src h, ?_, ?_⟩
  · intro remote src1 src2 w w1 w2 s1 s2 hwf hne h1 h2 heq
    have hw1 := connection_wf remote src1 w hwf
    rw [h1] at hw1
    obtain ⟨hwf1, _, hpost1⟩ := hw1
    have hs1 : w1.cache src1.pk = some (some s1) := hpost1 s1 rfl
    have hw2 := connection_wf remote src2 w1 hwf1
    rw [h2] at hw2
    obtain ⟨hwf2, hpres2, hpost2⟩ := hw2
    have hs2 : w2.cache src2.pk = some (some s2) := hpost2 s2 rfl
    have hs1' : w2.cache src1.pk = some (some s1) := hpres2 _ _ hs1
    exact hwf2.2 _ _ _ _ hs1' hs2 hne (congrArg Session.id heq)
  · intro remote src w hmiss hnone
    exact connection_none remote src w hmiss hnone

/-- C5, witness: the pool theorem applied at concrete sources — the
second call returns the cached object with the world unchanged, sessions
of two different sources differ, and a credential-less source caches
nothing. -/
theorem C5_connection_pool_witness :
    connection remoteOk srcPassword ((connection remoteOk srcPassword emptyWorld).2)
      = (.ok (some ⟨1, .withPassword "sync@EXAMPLE.COM" "hunter2" "EXAMPLE.COM"⟩),
         (connection remoteOk srcPassword emptyWorld).2) ∧
    (⟨1, .withPassword "sync@EXAMPLE.COM" "hunter2" "EXAMPLE.COM"⟩ : Session)
      ≠ ⟨3, .withPassword "other@EXAMPLE.COM" "hunter2" "EXAMPLE.COM"⟩ ∧
    connection remoteOk srcNoCreds emptyWorld
      = (.ok none, { emptyWorld with initCalls := 1 }) := by
  refine ⟨C5_connection_pool.1 remoteOk srcPassword emptyWorld _ _ rfl,
    C5_connection_pool.2.1 remoteOk srcPassword srcOther emptyWorld _ _ _ _
      cacheWF_empty (by decide) rfl rfl,
    C5_connection_pool.2.2 remoteOk srcNoCreds emptyWorld rfl rfl⟩

/-- C10: on the first `connection` call for a source with no cached
entry and credentials that resolve to a session, `_kadmin_init` runs
twice (the invocation counter advances by two; the first invocation's
session carries tag `nextId`), and the object cached and returned is the
second invocation's result — tag `nextId + 1` — not the first. -/
theorem C10_connection_double_init (remote : Remote) (src : KerberosSource)
    (w : World) (c : KAdminCall)
    (hmiss : w.cache src.pk = none)
    (hinit : initResult remote src = .ok (some c)) :
    (kadmin_init remote src w).1 = .ok (some { id := w.nextId, call := c }) ∧
    (connection remote src w).1 = .ok (some { id := w.nextId + 1, call := c }) ∧
    (connection remote src w).2.initCalls = w.initCalls + 2 ∧
    (connection remote src w).2.cache src.pk
      = some (some { id := w.nextId + 1, call := c }) := by
  rw [kadmin_init_spec, hinit, connection_store remote src w c hmiss hinit]
  refine ⟨rfl, rfl, rfl, by simp⟩

/-- C10, witness: the double-init theorem applied to a concrete
ccache-credentialled source on the empty world. -/
theorem C10_connection_double_init_witness :
    (kadmin_init remoteOk srcCcache emptyWorld).1
      = .ok (some ⟨0, .withCcache "sync@EXAMPLE.COM" "KCM:12345" "EXAMPLE.COM"⟩) ∧
    (connection remoteOk srcCcache emptyWorld).1
      = .ok (some ⟨1, .withCcache "sync@EXAMPLE.COM" "KCM:12345" "EXAMPLE.COM"⟩) ∧
    (connection remoteOk srcCcache emptyWorld).2.initCalls = 2 ∧
    (connection remoteOk srcCcache emptyWorld).2.cache srcCcache.pk
      = some (some ⟨1, .withCcache "sync@EXAMPLE.COM" "KCM:12345" "EXAMPLE.COM"⟩) := by
  have h := C10_connection_double_init remoteOk srcCcache emptyWorld
    (.withCcache "sync@EXAMPLE.COM" "KCM:12345" "EXAMPLE.COM") rfl rfl
  exact ⟨h.1, h.2.1, h.2.2.1, h.2.2.2⟩

/-- Splitting at a separator character absent from both prefixes is
injective. -/
theorem sep_append_inj (a : List Char) :
    ∀ {c : List Char} (b d : List Char), '-' ∉ a → '-' ∉ c →
      a ++ '-' :: b = c ++ '-' :: d → a = c ∧ b = d := by
  induction a with
  | nil =>
    intro c b d _ hc h
    cases c with
    | nil =>
      simp only [List.nil_append] at h
      injection h with _ h2
      exact ⟨rfl, h2⟩
    | cons c0 c' =>
      simp only [List.nil_append, List.cons_append] at h
      injection h with h1 _
      subst h1
      exact absurd (List.mem_cons_self _ _) hc
  | cons a0 a' ih =>
    intro c b d ha hc h
    cases c with
    | nil =>
      simp only [List.cons_append, List.nil_append] at h
      injection h with h1 _
      subst h1
      exact absurd (List.mem_cons_self _ _) ha
    | cons c0 c' =>
      simp only [List.cons_append] at h
      injection h with h1 h2
      obtain ⟨h3, h4⟩ := ih b d (fun hm => ha (List.mem_cons_of_mem a0 hm))
        (fun hm => hc (List.mem_cons_of_mem c0 hm)) h2
      exact ⟨by rw [h1, h3], h4⟩

/-- The lock name determines tenant schema and slug whenever schema names
contain no dash (the separator the name format uses). -/
theorem sync_lock_name_inj {a b c d : String}
    (ha : '-' ∉ a.data) (hc : '-' ∉ c.data)
    (h : sync_lock_name a b = sync_lock_name c d) : a = c ∧ b = d := by
  have hd : ("goauthentik.io/sources/kerberos/sync/" : String).data
        ++ (a.data ++ '-' :: b.data)
      = ("goauthentik.io/sources/kerberos/sync/" : String).data
        ++ (c.data ++ '-' :: d.data) := by
    have hdata := congrArg String.data h
    simpa [sync_lock_name, String.data_append, List.append_assoc] using hdata
  obtain ⟨h3, h4⟩ := sep_append_inj a.data b.data d.data ha hc
    (List.append_cancel_left hd)
  exact ⟨String.ext h3, String.ext h4⟩

/-- In every reachable deployment state the running passes hold
pairwise-distinct lock names. -/
theorem sync_reachable_pairwise {s : List SyncPass} (h : SyncReachable s) :
    s.Pairwise (fun p q =>
      sync_lock_name p.schema_name p.slug ≠ sync_lock_name q.schema_name q.slug) := by
  induction h with
  | init => exact List.Pairwise.nil
  | step _ hstep ih =>
    cases hstep with
    | start p t hfree =>
      exact List.pairwise_cons.mpr ⟨fun q hq he => hfree q hq he.symm, ih⟩
    | finish p s₁ s₂ =>
      exact ih.sublist (((List.Sublist.refl s₂).cons p).append_left s₁)

/-- No reachable deployment state contains the same pass twice. -/
theorem sync_reachable_count {s : List SyncPass} (h : SyncReachable s) (p : SyncPass) :
    s.count p ≤ 1 := by
  have hnd : s.Nodup :=
    (sync_reachable_pairwise h).imp fun {a b} hne heq => hne (by rw [heq])
  exact List.nodup_iff_count_le_one.mp hnd p

/-- C9: in every reachable deployment state at most one synchronization
pass per source is running; the lock name is a deterministic function of
tenant schema and source slug, injective whenever schema names are
dash-free (so attempts on the same source contend for one lock and
different sources map to different locks); and a pass for a source
different from every running pass is never blocked — its start step is
enabled. -/
theorem C9_sync_mutual_exclusion :
    (∀ s : List SyncPass, SyncReachable s → ∀ p : SyncPass, s.count p ≤ 1) ∧
    (∀ p q : SyncPass, '-' ∉ p.schema_name.data → '-' ∉ q.schema_name.data →
      sync_lock_name p.schema_name p.slug = sync_lock_name q.schema_name q.slug →
      p = q) ∧
    ∀ (s : List SyncPass) (p : SyncPass), '-' ∉ p.schema_name.data →
      (∀ q ∈ s, '-' ∉ q.schema_name.data ∧ q ≠ p) → SyncStep s (p :: s) := by
  refine ⟨fun s hs p => sync_reachable_count hs p, ?_, ?_⟩
  · intro p q hp hq hname
    obtain ⟨h1, h2⟩ := sync_lock_name_inj hp hq hname
    cases p
    cases q
    simp_all
  · intro s p hp hq
    refine SyncStep.start p s fun q hqs hname => ?_
    obtain ⟨hqd, hqp⟩ := hq q hqs
    obtain ⟨h1, h2⟩ := sync_lock_name_inj hqd hp hname
    apply hqp
    cases p
    cases q
    simp_all

/-- C9, witness: the mutual-exclusion theorem applied to the reachable
one-pass state, and the enabled start step from the idle state. -/
theorem C9_sync_mutual_exclusion_witness :
    ([⟨"public", "kerberos-main"⟩] : List SyncPass).count
      ⟨"public", "kerberos-main"⟩ ≤ 1 ∧
    SyncStep [] [⟨"public", "kerberos-main"⟩] := by
  constructor
  · exact C9_sync_mutual_exclusion.1 _
      (SyncReachable.step SyncReachable.init
        (SyncStep.start _ _ (fun q hq => absurd hq (List.not_mem_nil q)))) _
  · exact C9_sync_mutual_exclusion.2.2 [] ⟨"public", "kerberos-main"⟩ (by decide)
      (fun q hq => absurd hq (List.not_mem_nil q))
